import Mathlib

/-!
Verification development for the outgoing secure-message dispatcher of
librelay-node (`OutgoingMessage` in the repository source).

The JavaScript source is shallowly embedded as executable Lean functions:

* the padding computation (`getPaddedMessageLength`, the padded buffer built by
  `doSendMessage`) is embedded as arithmetic over `Nat` and `List Nat`
  (one `Nat` per byte; `new Buffer(n)` is zero-filled on every Node release
  the library supports, so untouched bytes are 0);
* the error taxonomy of `errors.js` (external to the core source file) is
  embedded as an inductive `JsError`, with the distinct kinds the spec lists
  (`ProtocolError`, `OutgoingMessageError`, `SendMessageError`,
  `UnregisteredUserError`, `OutgoingIdentityKeyError`); a JavaScript
  `undefined` cause is the `noCause` constructor;
* the asynchronous dispatch (`sendToAddr` / `reloadDevicesAndSend` /
  `doSendMessage`) is embedded as a fuel-indexed recursive function over an
  explicit environment that supplies the outcome of every external call
  (encryption, `signal.sendMessages`, `getKeysForAddr`,
  `storage.getDeviceIds`), producing the chronological list of observable
  actions (transmits, session removals, emitted `sent`/`error` events);
* the key-exchange subsystem (`getKeysForAddr`) is embedded separately at the
  granularity of individual RPCs, `processPreKey` calls and `keychange`
  emissions, with the single possible reentrant retry unrolled into a
  dedicated set of `...R` definitions (the source recursion can only go from
  `reentrant = false` to `reentrant = true`, where it rethrows instead of
  recursing again).
-/

namespace Librelay

/-! ## Padding (source: `getPaddedMessageLength` and the start of `doSendMessage`) -/

/-- Embeds `getPaddedMessageLength(messageLength)`:
`messagePartCount = floor((messageLength+1)/160)`, incremented when
`(messageLength+1) % 160 !== 0`, times 160. -/
def getPaddedMessageLength (messageLength : Nat) : Nat :=
  if (messageLength + 1) % 160 ≠ 0 then ((messageLength + 1) / 160 + 1) * 160
  else ((messageLength + 1) / 160) * 160

/-- Embeds `const minLen = this.getPaddedMessageLength(mBuf.byteLength + 1) - 1`
from `doSendMessage` (note the argument is `|m| + 1`, not `|m|`). -/
def paddedLength (mLen : Nat) : Nat := getPaddedMessageLength (mLen + 1) - 1

/-- Embeds the padded buffer of `doSendMessage`:
`paddedBuf = new Buffer(minLen)` (zero-filled), `paddedBuf.set(mBuf)` at
offset 0, `paddedBuf[mBuf.byteLength] = 0x80`. -/
def paddedBuf (m : List Nat) : List Nat :=
  (List.range (paddedLength m.length)).map fun k =>
    if k < m.length then m.getD k 0
    else if k = m.length then 0x80 else 0

/-- The padded length exactly as the spec's words state it:
`ceil((|m| + 1) / 160) * 160 - 1`.  Written only to be compared against the
length the source actually computes. -/
def specPaddedLength (n : Nat) : Nat := ((n + 1 + 159) / 160) * 160 - 1

theorem getPaddedMessageLength_eq (L : Nat) :
    getPaddedMessageLength L = ((L + 160) / 160) * 160 := by
  unfold getPaddedMessageLength
  split <;> omega

theorem paddedLength_eq (n : Nat) :
    paddedLength n = ((n + 2 + 159) / 160) * 160 - 1 := by
  unfold paddedLength
  rw [getPaddedMessageLength_eq]

theorem le_paddedLength (n : Nat) : n + 1 ≤ paddedLength n := by
  rw [paddedLength_eq]
  omega

theorem paddedBuf_length (m : List Nat) :
    (paddedBuf m).length = paddedLength m.length := by
  simp [paddedBuf]

theorem paddedBuf_get? (m : List Nat) (k : Nat) (h : k < paddedLength m.length) :
    (paddedBuf m).get? k =
      some (if k < m.length then m.getD k 0
            else if k = m.length then 0x80 else 0) := by
  unfold paddedBuf
  rw [List.get?_map, List.get?_range h]
  rfl

theorem paddedBuf_layout (m : List Nat) :
    (paddedBuf m).length = ((m.length + 2 + 159) / 160) * 160 - 1 ∧
    (∀ k, k < m.length → (paddedBuf m).get? k = some (m.getD k 0)) ∧
    (paddedBuf m).get? m.length = some 0x80 ∧
    (∀ k, m.length < k → k < (paddedBuf m).length → (paddedBuf m).get? k = some 0) := by
  have hlen := paddedBuf_length m
  have hb := le_paddedLength m.length
  refine ⟨by rw [hlen, paddedLength_eq], ?_, ?_, ?_⟩
  · intro k hk
    rw [paddedBuf_get? m k (by omega), if_pos hk]
  · rw [paddedBuf_get? m m.length (by omega)]
    simp
  · intro k hk1 hk2
    rw [hlen] at hk2
    rw [paddedBuf_get? m k hk2, if_neg (by omega), if_neg (by omega)]

/-- Claim C2 (amended): the padded buffer allocated by `doSendMessage` has
length `ceil((|m| + 2) / 160) * 160 - 1` (the code passes `|m| + 1` to
`getPaddedMessageLength`, which itself adds the terminator), carries a copy of
`m` at offset 0, `0x80` at index `|m|`, and zeros everywhere above. -/
theorem c2_padding_layout (m : List Nat) :
    (paddedBuf m).length = ((m.length + 2 + 159) / 160) * 160 - 1 ∧
    (∀ k, k < m.length → (paddedBuf m).get? k = some (m.getD k 0)) ∧
    (paddedBuf m).get? m.length = some 0x80 ∧
    (∀ k, m.length < k → k < (paddedBuf m).length → (paddedBuf m).get? k = some 0) :=
  paddedBuf_layout m

/-- Witness for C2's amended theorem at a concrete plaintext. -/
theorem c2_padding_layout_witness :
    (paddedBuf [10, 20, 30]).length = ((3 + 2 + 159) / 160) * 160 - 1 ∧
    (paddedBuf [10, 20, 30]).get? 1 = some 20 ∧
    (paddedBuf [10, 20, 30]).get? 3 = some 0x80 ∧
    (paddedBuf [10, 20, 30]).get? 100 = some 0 := by
  obtain ⟨h1, h2, h3, h4⟩ := c2_padding_layout [10, 20, 30]
  exact ⟨h1, h2 1 (by decide), h3, h4 100 (by decide) (by rw [paddedBuf_length]; decide)⟩

/-- Counterexample to claim C2 as stated: at `|m| = 159` the buffer the source
allocates has 319 bytes, while the spec's formula
`ceil((|m| + 1) / 160) * 160 - 1` gives 159. -/
theorem c2_counterexample :
    (paddedBuf (List.replicate 159 0)).length = 319 ∧
    specPaddedLength 159 = 159 ∧
    (paddedBuf (List.replicate 159 0)).length ≠ specPaddedLength 159 := by
  have h : (paddedBuf (List.replicate 159 0)).length = 319 := by
    rw [paddedBuf_length, List.length_replicate]; decide
  exact ⟨h, by decide, by rw [h]; decide⟩

/-- Claim C3: the padded buffer satisfies `|padded| % 160 = 159`,
`padded[|m|] = 0x80`, and `padded[k] = 0` for `|m| < k < |padded|`. -/
theorem c3_padding_invariants (m : List Nat) :
    (paddedBuf m).length % 160 = 159 ∧
    (paddedBuf m).get? m.length = some 0x80 ∧
    (∀ k, m.length < k → k < (paddedBuf m).length → (paddedBuf m).get? k = some 0) := by
  obtain ⟨h1, _, h3, h4⟩ := paddedBuf_layout m
  refine ⟨?_, h3, h4⟩
  rw [h1]
  omega

/-- Witness for C3 at a concrete plaintext. -/
theorem c3_padding_invariants_witness :
    (paddedBuf [7, 7, 7]).length % 160 = 159 ∧
    (paddedBuf [7, 7, 7]).get? 3 = some 0x80 ∧
    (paddedBuf [7, 7, 7]).get? 42 = some 0 := by
  obtain ⟨h1, h2, h3⟩ := c3_padding_invariants [7, 7, 7]
  exact ⟨h1, h2, h3 42 (by decide) (by rw [paddedBuf_length]; decide)⟩

/-! ## Error taxonomy and `emitError` -/

/-- The `response` payload carried by a `ProtocolError`, with the fields
`doSendMessage` reads (`extraDevices`/`missingDevices` on a 409,
`staleDevices` on a 410). -/
structure ProtoResponse where
  extraDevices : List Nat
  missingDevices : List Nat
  staleDevices : List Nat
deriving DecidableEq

/-- The error kinds of `errors.js` as the spec's taxonomy lists them
(distinct kinds, no subclassing), plus `genericError` for plain JavaScript
errors (network failures, `TypeError`, ...) and `noCause` for an
`undefined` cause. -/
inductive JsError where
  | protocolError (code : Nat) (response : ProtoResponse)
  | outgoingMessageError (cause : JsError)
  | unregisteredUserError (cause : JsError)
  | sendMessageError (cause : JsError)
  | outgoingIdentityKeyError (accepted : Bool)
  | genericError (msg : String)
  | noCause
deriving DecidableEq

def isProtocolError : JsError → Bool
  | .protocolError _ _ => true
  | _ => false

def isOutgoingMessageError : JsError → Bool
  | .outgoingMessageError _ => true
  | _ => false

/-- Embeds the wrapping decision of `emitError`:
`if (!error || error instanceof errors.ProtocolError && error.code !== 404)`
the cause is replaced by `new OutgoingMessageError(..., error)`
(`&&` binds tighter than `||` in JavaScript). -/
def emitErrorWrap : Option JsError → JsError
  | none => .outgoingMessageError .noCause
  | some e =>
    match e with
    | .protocolError code resp =>
      if code ≠ 404 then .outgoingMessageError (.protocolError code resp)
      else .protocolError code resp
    | _ => e

/-- Claim C4 (amended): `emitError` wraps the cause in an
`OutgoingMessageError` exactly when the cause is absent or is a
protocol-level error whose code is not 404; a 404 protocol error and every
non-protocol cause pass through unwrapped. -/
theorem c4_emitError_wrapping :
    (∀ code resp, code ≠ 404 →
      emitErrorWrap (some (.protocolError code resp)) =
        .outgoingMessageError (.protocolError code resp)) ∧
    (∀ resp, emitErrorWrap (some (.protocolError 404 resp)) = .protocolError 404 resp) ∧
    (∀ e, isProtocolError e = false → emitErrorWrap (some e) = e) ∧
    emitErrorWrap none = .outgoingMessageError .noCause := by
  refine ⟨?_, ?_, ?_, rfl⟩
  · intro code resp h
    simp [emitErrorWrap, h]
  · intro resp
    simp [emitErrorWrap]
  · intro e he
    cases e <;> simp_all [emitErrorWrap, isProtocolError]

/-- Witness for C4's amended theorem: a 500-coded protocol error is wrapped,
a 404-coded one is not. -/
theorem c4_emitError_wrapping_witness :
    emitErrorWrap (some (.protocolError 500 ⟨[], [], []⟩)) =
      .outgoingMessageError (.protocolError 500 ⟨[], [], []⟩) ∧
    emitErrorWrap (some (.protocolError 404 ⟨[], [], []⟩)) =
      .protocolError 404 ⟨[], [], []⟩ :=
  ⟨c4_emitError_wrapping.1 500 ⟨[], [], []⟩ (by decide),
   c4_emitError_wrapping.2.1 ⟨[], [], []⟩⟩

/-- Counterexample to claim C4 as stated: a plain (non-protocol) error cause
is not wrapped in an `OutgoingMessageError`, although it is not a 404-coded
protocol error. -/
theorem c4_counterexample :
    emitErrorWrap (some (.genericError "boom")) = .genericError "boom" ∧
    isOutgoingMessageError (emitErrorWrap (some (.genericError "boom"))) = false :=
  ⟨rfl, rfl⟩

/-! ## Observable actions of a dispatch -/

/-- The events `emit` delivers to observers (`sent` and `error` entries;
`keychange` emissions are recorded as their own action below because their
payload is mutable). -/
inductive Event where
  | sent (addr : String)
  | error (addr : String) (reason : String) (err : JsError)
deriving DecidableEq

/-- One externally observable step of the dispatcher, in chronological
order: a `signal.sendMessages` transmit attempt (with the device ids that
were encrypted to and the timestamp argument), a
`storage.removeSession(encodedAddr)` call, a `closeOpenSessionForDevice`
call on a retained cipher, a `getKeysForAddr(addr, resetDevices)` call from
the 409/410 recovery, entering `reloadDevicesAndSend(addr, recurse)`, a
`signal.getKeysForAddr(addr, device?)` RPC, a `processPreKey` run, a
`keychange` emission (with the `accepted` flag the handlers left), or an
emitted `sent`/`error` event. -/
inductive Action where
  | transmit (deviceIds : List Nat) (timestamp : Nat)
  | removeSession (encodedAddr : String)
  | closeSession (deviceId : Nat)
  | fetchKeys (devices : List Nat)
  | reload (recurse : Bool)
  | rpcGetKeys (device : Option Nat)
  | processPreKey (deviceId : Nat)
  | keychange (accepted : Bool)
  | emit (e : Event)
deriving DecidableEq

/-- Embeds `removeDeviceIdsForAddr(addr, deviceIdsToRemove)`: one
`storage.removeSession(addr + "." + id)` per id. -/
def removeDeviceIdsForAddr (addr : String) (deviceIdsToRemove : List Nat) : List Action :=
  deviceIdsToRemove.map fun id => .removeSession (addr ++ "." ++ toString id)

def sentCount : List Action → Nat
  | [] => 0
  | .emit (.sent _) :: rest => sentCount rest + 1
  | _ :: rest => sentCount rest

def errorEventCount : List Action → Nat
  | [] => 0
  | .emit (.error _ _ _) :: rest => errorEventCount rest + 1
  | _ :: rest => errorEventCount rest

def transmitCount : List Action → Nat
  | [] => 0
  | .transmit _ _ :: rest => transmitCount rest + 1
  | _ :: rest => transmitCount rest

def keychangeCount : List Action → Nat
  | [] => 0
  | .keychange _ :: rest => keychangeCount rest + 1
  | _ :: rest => keychangeCount rest

theorem transmitCount_append (a b : List Action) :
    transmitCount (a ++ b) = transmitCount a + transmitCount b := by
  induction a with
  | nil => simp [transmitCount]
  | cons x rest ih =>
    cases x <;> simp [transmitCount, ih, Nat.add_assoc, Nat.add_comm, Nat.add_left_comm]

theorem keychangeCount_append (a b : List Action) :
    keychangeCount (a ++ b) = keychangeCount a + keychangeCount b := by
  induction a with
  | nil => simp [keychangeCount]
  | cons x rest ih =>
    cases x <;> simp [keychangeCount, ih, Nat.add_assoc, Nat.add_comm, Nat.add_left_comm]

theorem transmitCount_removeActs (addr : String) (ids : List Nat) :
    transmitCount (removeDeviceIdsForAddr addr ids) = 0 := by
  induction ids with
  | nil => rfl
  | cons x rest ih => simpa [removeDeviceIdsForAddr, transmitCount] using ih

theorem transmitCount_closeActs (l : List Nat) :
    transmitCount (l.map Action.closeSession) = 0 := by
  induction l with
  | nil => rfl
  | cons x rest ih => simpa [transmitCount] using ih

/-! ## Encrypt-and-transmit (`transmitMessage`, `doSendMessage`) -/

/-- The outcome the environment assigns to one `signal.sendMessages` call:
either a 2xx success or a thrown error. -/
inductive SendOutcome where
  | ok
  | err (e : JsError)
deriving DecidableEq

/-- Embeds `transmitMessage`'s classification of a `signal.sendMessages`
failure: 409/410 protocol errors bubble unchanged, a 404 protocol error
becomes `UnregisteredUserError`, other protocol errors become
`SendMessageError`, and non-protocol (network) errors are rethrown as-is. -/
def transmitMessage : SendOutcome → Except JsError Unit
  | .ok => .ok ()
  | .err e =>
    match e with
    | .protocolError code resp =>
      if code ≠ 409 ∧ code ≠ 410 then
        if code = 404 then .error (.unregisteredUserError (.protocolError code resp))
        else .error (.sendMessageError (.protocolError code resp))
      else .error (.protocolError code resp)
    | _ => .error e

/-- Embeds the `staleDevices.map(x => ciphers[x].closeOpenSessionForDevice())`
loop of the 410 branch.  `ciphers` holds exactly the device ids that were
just encrypted to, so a stale device id outside that set dereferences
`undefined` and throws a `TypeError`; the callbacks before it have already
run.  Returns the close actions performed and whether the loop completed. -/
def closeStaleActs (cipherIds : List Nat) : List Nat → List Action × Bool
  | [] => ([], true)
  | x :: xs =>
    if x ∈ cipherIds then
      match closeStaleActs cipherIds xs with
      | (a, ok) => (Action.closeSession x :: a, ok)
    else ([], false)

/-- The environment's input for one `doSendMessage` frame: the joint outcome
of the per-device encryptions (`some e` means the `Promise.all` rejected
with `e`), the raw `signal.sendMessages` outcome, the outcome of the
recovery's `getKeysForAddr(addr, resetDevices)` call, and the outcome of
`storage.getDeviceIds` inside the recovery's `reloadDevicesAndSend`. -/
structure FrameInput where
  encryptError : Option JsError
  sendOutcome : SendOutcome
  getKeysResult : Except JsError Unit
  reloadDeviceIds : Except JsError (List Nat)

/-- What one `doSendMessage` activation does before any recursion: either it
finishes (returning normally or throwing), or it reaches the recursive
`reloadDevicesAndSend` with a reloaded device list and a new recurse flag. -/
inductive FrameStep where
  | done (acts : List Action) (r : Except JsError Unit)
  | recover (acts : List Action) (ids2 : List Nat) (recurse2 : Bool)

def FrameStep.acts : FrameStep → List Action
  | .done a _ => a
  | .recover a _ _ => a

/-- Embeds the body of `doSendMessage(addr, deviceIds, recurse)` up to (and
excluding) the recursive `reloadDevicesAndSend` call, following the source
line by line: encrypt (on failure emit `"Failed to create message"` and
return), transmit, and on a thrown error classify it — a 409/410 protocol
error with `recurse` exhausted emits `"Hit retry limit attempting to reload
device list"`; with `recurse` set, a 409 prunes `extraDevices` and a 410
closes the retained ciphers of `staleDevices` (throwing a `TypeError` when a
stale id has no cipher); `getKeysForAddr(addr, resetDevices)` runs outside
the inner `try`, so its failure propagates; a failing `getDeviceIds` inside
`reloadDevicesAndSend` is caught as `"Failed to reload device keys"`; every
other transmit error emits `"Failed to send message"`. -/
def frameStep (fi : FrameInput) (addr : String) (ts : Nat) (deviceIds : List Nat)
    (recurse : Bool) : FrameStep :=
  match fi.encryptError with
  | some e =>
    .done [.emit (.error addr "Failed to create message" (emitErrorWrap (some e)))] (.ok ())
  | none =>
    match transmitMessage fi.sendOutcome with
    | .ok _ => .done [.transmit deviceIds ts, .emit (.sent addr)] (.ok ())
    | .error e =>
      match e with
      | .protocolError code resp =>
        if code = 410 ∨ code = 409 then
          if recurse then
            match
              (if code = 409 then (removeDeviceIdsForAddr addr resp.extraDevices, true)
               else closeStaleActs deviceIds resp.staleDevices) with
            | (racts, false) =>
              .done (.transmit deviceIds ts :: racts)
                (.error (.genericError "TypeError: ciphers[x] is undefined"))
            | (racts, true) =>
              match fi.getKeysResult with
              | .error e2 =>
                .done (.transmit deviceIds ts :: racts ++
                  [.fetchKeys (if code = 410 then resp.staleDevices else resp.missingDevices)])
                  (.error e2)
              | .ok _ =>
                match fi.reloadDeviceIds with
                | .error e3 =>
                  .done (.transmit deviceIds ts :: racts ++
                    [.fetchKeys (if code = 410 then resp.staleDevices else resp.missingDevices),
                     .reload (code == 409),
                     .emit (.error addr "Failed to reload device keys" (emitErrorWrap (some e3)))])
                    (.ok ())
                | .ok ids2 =>
                  .recover (.transmit deviceIds ts :: racts ++
                    [.fetchKeys (if code = 410 then resp.staleDevices else resp.missingDevices),
                     .reload (code == 409)]) ids2 (code == 409)
          else
            .done [.transmit deviceIds ts,
              .emit (.error addr "Hit retry limit attempting to reload device list"
                (emitErrorWrap (some (.protocolError code resp))))] (.ok ())
        else
          .done [.transmit deviceIds ts,
            .emit (.error addr "Failed to send message"
              (emitErrorWrap (some (.protocolError code resp))))] (.ok ())
      | _ =>
        .done [.transmit deviceIds ts,
          .emit (.error addr "Failed to send message" (emitErrorWrap (some e)))] (.ok ())

/-- Embeds `doSendMessage` including the recursion through
`reloadDevicesAndSend`.  `frames depth` supplies the environment of the
activation at recursion depth `depth`; `fuel` bounds the recursion (`none`
means the fuel ran out, i.e. the run did not terminate within it).  When the
recursive call throws, the inner `catch` emits `"Failed to reload device
keys"` and returns; when it returns normally, control falls out of the
`catch` block and the source runs `this.emitSent(addr)` — there is no
`return` ending the recovery branch. -/
def doSendMessage (frames : Nat → FrameInput) (addr : String) (ts : Nat) :
    Nat → Nat → List Nat → Bool → Option (List Action × Except JsError Unit)
  | 0, _, _, _ => none
  | fuel + 1, depth, deviceIds, recurse =>
    match frameStep (frames depth) addr ts deviceIds recurse with
    | .done acts r => some (acts, r)
    | .recover acts ids2 recurse2 =>
      match doSendMessage frames addr ts fuel (depth + 1) ids2 recurse2 with
      | none => none
      | some (acts2, .error e4) =>
        some (acts ++ acts2 ++
          [.emit (.error addr "Failed to reload device keys" (emitErrorWrap (some e4)))], .ok ())
      | some (acts2, .ok _) =>
        some (acts ++ acts2 ++ [.emit (.sent addr)], .ok ())

/-- The environment of one `sendToAddr` dispatch: outcomes of
`getStaleDeviceIdsForAddr`, of the initial `getKeysForAddr(addr,
updateDevices)`, of `storage.getDeviceIds` in the first
`reloadDevicesAndSend`, and the per-depth `doSendMessage` frame inputs. -/
structure SendEnv where
  staleScan : Except JsError (List Nat)
  initialKeys : Except JsError Unit
  firstDeviceIds : Except JsError (List Nat)
  frames : Nat → FrameInput

/-- Embeds `sendToAddr(addr)`: the three phases each catch their failure and
emit an `error` event with the phase's reason; the final
`reloadDevicesAndSend(addr, true)` runs `doSendMessage`, whose thrown errors
are caught as `"Failed to send to address"`. -/
def sendToAddr (env : SendEnv) (addr : String) (ts : Nat) (fuel : Nat) :
    Option (List Action) :=
  match env.staleScan with
  | .error e =>
    some [.emit (.error addr ("Failed to get device ids for address " ++ addr)
      (emitErrorWrap (some e)))]
  | .ok _updateDevices =>
    match env.initialKeys with
    | .error e =>
      some [.emit (.error addr ("Failed to retrieve new device keys for address " ++ addr)
        (emitErrorWrap (some e)))]
    | .ok _ =>
      match env.firstDeviceIds with
      | .error e =>
        some [.reload true,
          .emit (.error addr ("Failed to send to address " ++ addr) (emitErrorWrap (some e)))]
      | .ok ids =>
        match doSendMessage env.frames addr ts fuel 0 ids true with
        | none => none
        | some (acts, .ok _) => some (.reload true :: acts)
        | some (acts, .error e) =>
          some (.reload true :: acts ++
            [.emit (.error addr ("Failed to send to address " ++ addr) (emitErrorWrap (some e)))])

theorem closeStaleActs_of_all (ids : List Nat) (l : List Nat)
    (h : ∀ x ∈ l, x ∈ ids) :
    closeStaleActs ids l = (l.map Action.closeSession, true) := by
  induction l with
  | nil => rfl
  | cons x xs ih =>
    have hx : x ∈ ids := h x (List.mem_cons_self x xs)
    have ihx := ih fun y hy => h y (List.mem_cons_of_mem x hy)
    simp [closeStaleActs, hx, ihx]

theorem closeStaleActs_snd_false (ids : List Nat) (l : List Nat) (x : Nat)
    (hx : x ∈ l) (hnc : x ∉ ids) :
    (closeStaleActs ids l).2 = false := by
  induction l with
  | nil => cases hx
  | cons y ys ih =>
    rcases List.mem_cons.mp hx with h | h
    · subst h
      simp [closeStaleActs, hnc]
    · by_cases hy : y ∈ ids
      · have hrec := ih h
        simp only [closeStaleActs, if_pos hy]
        rcases hcl : closeStaleActs ids ys with ⟨a, ok⟩
        rw [hcl] at hrec
        simpa using hrec
      · simp [closeStaleActs, hy]

theorem fetchKeys_not_mem_closeActs (ids : List Nat) (l : List Nat) (dl : List Nat) :
    Action.fetchKeys dl ∉ (closeStaleActs ids l).1 := by
  induction l with
  | nil => simp [closeStaleActs]
  | cons y ys ih =>
    by_cases hy : y ∈ ids
    · simp only [closeStaleActs, if_pos hy]
      rcases hcl : closeStaleActs ids ys with ⟨a, ok⟩
      rw [hcl] at ih
      simpa using ih
    · simp [closeStaleActs, hy]

/-! Evaluation lemmas for `frameStep` and the unfolding of `doSendMessage`,
used to settle the control-flow claims. -/

theorem doSendMessage_succ (frames : Nat → FrameInput) (addr : String) (ts fuel depth : Nat)
    (deviceIds : List Nat) (recurse : Bool) :
    doSendMessage frames addr ts (fuel + 1) depth deviceIds recurse =
      match frameStep (frames depth) addr ts deviceIds recurse with
      | .done acts r => some (acts, r)
      | .recover acts ids2 recurse2 =>
        match doSendMessage frames addr ts fuel (depth + 1) ids2 recurse2 with
        | none => none
        | some (acts2, .error e4) =>
          some (acts ++ acts2 ++
            [.emit (.error addr "Failed to reload device keys" (emitErrorWrap (some e4)))], .ok ())
        | some (acts2, .ok _) =>
          some (acts ++ acts2 ++ [.emit (.sent addr)], .ok ()) := rfl

theorem frameStep_send_ok (fi : FrameInput) (addr : String) (ts : Nat)
    (ids : List Nat) (recurse : Bool)
    (he : fi.encryptError = none) (hs : fi.sendOutcome = .ok) :
    frameStep fi addr ts ids recurse = .done [.transmit ids ts, .emit (.sent addr)] (.ok ()) := by
  simp [frameStep, he, hs, transmitMessage]

theorem frameStep_410_hitLimit (fi : FrameInput) (addr : String) (ts : Nat)
    (ids : List Nat) (r : ProtoResponse)
    (he : fi.encryptError = none) (hs : fi.sendOutcome = .err (.protocolError 410 r)) :
    frameStep fi addr ts ids false =
      .done [.transmit ids ts,
        .emit (.error addr "Hit retry limit attempting to reload device list"
          (.outgoingMessageError (.protocolError 410 r)))] (.ok ()) := by
  simp [frameStep, he, hs, transmitMessage, emitErrorWrap]

theorem frameStep_410_recover (fi : FrameInput) (addr : String) (ts : Nat)
    (ids : List Nat) (r : ProtoResponse) (ids2 : List Nat) (cl : List Action)
    (he : fi.encryptError = none) (hs : fi.sendOutcome = .err (.protocolError 410 r))
    (hk : fi.getKeysResult = .ok ()) (hr : fi.reloadDeviceIds = .ok ids2)
    (hcl : closeStaleActs ids r.staleDevices = (cl, true)) :
    frameStep fi addr ts ids true =
      .recover (.transmit ids ts :: cl ++ [.fetchKeys r.staleDevices, .reload false])
        ids2 false := by
  simp [frameStep, he, hs, hk, hr, transmitMessage, hcl]

theorem frameStep_410_typeError (fi : FrameInput) (addr : String) (ts : Nat)
    (ids : List Nat) (r : ProtoResponse) (a : List Action)
    (he : fi.encryptError = none) (hs : fi.sendOutcome = .err (.protocolError 410 r))
    (hcl : closeStaleActs ids r.staleDevices = (a, false)) :
    frameStep fi addr ts ids true =
      .done (.transmit ids ts :: a)
        (.error (.genericError "TypeError: ciphers[x] is undefined")) := by
  simp [frameStep, he, hs, transmitMessage, hcl]

theorem frameStep_409_recover (fi : FrameInput) (addr : String) (ts : Nat)
    (ids : List Nat) (E M S : List Nat) (ids2 : List Nat)
    (he : fi.encryptError = none) (hs : fi.sendOutcome = .err (.protocolError 409 ⟨E, M, S⟩))
    (hk : fi.getKeysResult = .ok ()) (hr : fi.reloadDeviceIds = .ok ids2) :
    frameStep fi addr ts ids true =
      .recover (.transmit ids ts :: removeDeviceIdsForAddr addr E ++
        [.fetchKeys M, .reload true]) ids2 true := by
  simp [frameStep, he, hs, hk, hr, transmitMessage]

/-! ## Claim C1 -/

/-- The environment of the failing dispatch for claim C1: the first transmit
draws a 409 `{extraDevices: [], missingDevices: []}`, the retry succeeds. -/
def c1Frames : Nat → FrameInput := fun i =>
  if i = 0 then ⟨none, .err (.protocolError 409 ⟨[], [], []⟩), .ok (), .ok [1]⟩
  else ⟨none, .ok, .ok (), .ok [1]⟩

def c1Env : SendEnv := ⟨.ok [], .ok (), .ok [1], c1Frames⟩

def c1Trace : List Action :=
  [.reload true, .transmit [1] 1337, .fetchKeys [], .reload true, .transmit [1] 1337,
   .emit (.sent "alice"), .emit (.sent "alice")]

/-- Claim C1 is violated by the source: when a 409 recovery's retry
succeeds, the nested `doSendMessage` emits its own `sent` event, and the
outer activation then falls out of the `catch` block and runs
`this.emitSent(addr)` again (the recovery branch has no `return`), so this
terminating `sendToAddr` emits two `sent` events. -/
theorem c1_double_sent :
    sendToAddr c1Env "alice" 1337 2 = some c1Trace ∧
    sentCount c1Trace = 2 ∧ errorEventCount c1Trace = 0 :=
  ⟨rfl, rfl, rfl⟩

/-! ## Claim C5 -/

/-- Claim C5: a 410 answered while `recurse` is still available re-enters
`reloadDevicesAndSend` with `recurse = false`; if the retry transmit draws a
second 410, the dispatch emits `"Hit retry limit attempting to reload device
list"` and performs no third transmit — exactly two transmit attempts happen
(the source still appends a spurious `sent` afterwards, which is claim C1's
defect, not a transmit). -/
theorem c5_second_410_terminates (frames : Nat → FrameInput) (addr : String)
    (ts fuel : Nat) (ids ids2 : List Nat) (r1 r2 : ProtoResponse)
    (h0e : (frames 0).encryptError = none)
    (h0s : (frames 0).sendOutcome = .err (.protocolError 410 r1))
    (h0c : ∀ x ∈ r1.staleDevices, x ∈ ids)
    (h0k : (frames 0).getKeysResult = .ok ())
    (h0r : (frames 0).reloadDeviceIds = .ok ids2)
    (h1e : (frames 1).encryptError = none)
    (h1s : (frames 1).sendOutcome = .err (.protocolError 410 r2)) :
    doSendMessage frames addr ts (fuel + 2) 0 ids true =
      some (.transmit ids ts :: r1.staleDevices.map Action.closeSession ++
        [.fetchKeys r1.staleDevices, .reload false, .transmit ids2 ts,
         .emit (.error addr "Hit retry limit attempting to reload device list"
           (.outgoingMessageError (.protocolError 410 r2))),
         .emit (.sent addr)], .ok ()) ∧
    transmitCount (.transmit ids ts :: r1.staleDevices.map Action.closeSession ++
        [.fetchKeys r1.staleDevices, .reload false, .transmit ids2 ts,
         .emit (.error addr "Hit retry limit attempting to reload device list"
           (.outgoingMessageError (.protocolError 410 r2))),
         .emit (.sent addr)]) = 2 := by
  constructor
  · have e0 := frameStep_410_recover (frames 0) addr ts ids r1 ids2
      (r1.staleDevices.map Action.closeSession) h0e h0s h0k h0r
      (closeStaleActs_of_all ids r1.staleDevices h0c)
    have e1 := frameStep_410_hitLimit (frames 1) addr ts ids2 r2 h1e h1s
    simp [doSendMessage_succ, e0, e1]
  · simp [transmitCount, transmitCount_append, transmitCount_closeActs]

/-- Witness for C5 at a concrete environment. -/
def c5Frames : Nat → FrameInput := fun i =>
  if i = 0 then ⟨none, .err (.protocolError 410 ⟨[], [], [2]⟩), .ok (), .ok [2]⟩
  else ⟨none, .err (.protocolError 410 ⟨[], [], []⟩), .ok (), .ok []⟩

theorem c5_second_410_terminates_witness :
    doSendMessage c5Frames "bob" 5 2 0 [2] true =
      some (.transmit [2] 5 :: [2].map Action.closeSession ++
        [.fetchKeys [2], .reload false, .transmit [2] 5,
         .emit (.error "bob" "Hit retry limit attempting to reload device list"
           (.outgoingMessageError (.protocolError 410 ⟨[], [], []⟩))),
         .emit (.sent "bob")], .ok ()) ∧
    transmitCount (.transmit [2] 5 :: [2].map Action.closeSession ++
        [.fetchKeys [2], .reload false, .transmit [2] 5,
         .emit (.error "bob" "Hit retry limit attempting to reload device list"
           (.outgoingMessageError (.protocolError 410 ⟨[], [], []⟩))),
         .emit (.sent "bob")]) = 2 :=
  c5_second_410_terminates c5Frames "bob" 5 0 [2] [2] ⟨[], [], [2]⟩ ⟨[], [], []⟩
    rfl rfl (by simp) rfl rfl rfl rfl

/-! ## Claim C6 -/

/-- Claim C6: a 409 carrying `extraDevices = E` and `missingDevices = M`
while `recurse` holds makes the dispatcher call
`storage.removeSession(addr + "." + e)` for every `e ∈ E`, then fetch keys
for exactly `M`, then re-enter `reloadDevicesAndSend` with `recurse = true`,
and only then run the retry transmit; when `M = []`, `getKeysForAddr` with
an explicit empty device list performs no RPC at all. -/
theorem c6_409_reconciliation (frames : Nat → FrameInput) (addr : String)
    (ts fuel : Nat) (ids ids2 E M S : List Nat)
    (h0e : (frames 0).encryptError = none)
    (h0s : (frames 0).sendOutcome = .err (.protocolError 409 ⟨E, M, S⟩))
    (h0k : (frames 0).getKeysResult = .ok ())
    (h0r : (frames 0).reloadDeviceIds = .ok ids2)
    (h1e : (frames 1).encryptError = none)
    (h1s : (frames 1).sendOutcome = .ok) :
    doSendMessage frames addr ts (fuel + 2) 0 ids true =
      some (.transmit ids ts :: removeDeviceIdsForAddr addr E ++
        [.fetchKeys M, .reload true, .transmit ids2 ts,
         .emit (.sent addr), .emit (.sent addr)], .ok ()) ∧
    (∀ e ∈ E, Action.removeSession (addr ++ "." ++ toString e) ∈
      removeDeviceIdsForAddr addr E) := by
  constructor
  · have e0 := frameStep_409_recover (frames 0) addr ts ids E M S ids2 h0e h0s h0k h0r
    have e1 := frameStep_send_ok (frames 1) addr ts ids2 true h1e h1s
    simp [doSendMessage_succ, e0, e1]
  · intro e he
    exact List.mem_map_of_mem _ he

/-- Witness for C6 at a concrete environment. -/
def c6Frames : Nat → FrameInput := fun i =>
  if i = 0 then ⟨none, .err (.protocolError 409 ⟨[3], [4], []⟩), .ok (), .ok [1, 4]⟩
  else ⟨none, .ok, .ok (), .ok []⟩

theorem c6_409_reconciliation_witness :
    doSendMessage c6Frames "alice" 99 2 0 [1, 3] true =
      some (.transmit [1, 3] 99 :: removeDeviceIdsForAddr "alice" [3] ++
        [.fetchKeys [4], .reload true, .transmit [1, 4] 99,
         .emit (.sent "alice"), .emit (.sent "alice")], .ok ()) ∧
    (∀ e ∈ [3], Action.removeSession ("alice" ++ "." ++ toString e) ∈
      removeDeviceIdsForAddr "alice" [3]) :=
  c6_409_reconciliation c6Frames "alice" 99 0 [1, 3] [1, 4] [3] [4] []
    rfl rfl rfl rfl rfl rfl

/-! ## Claim C10 -/

/-- Claim C10: the 410 recovery implicitly requires every id in
`staleDevices` to be among the device ids just encrypted to (the retained
`ciphers` map is keyed by exactly those ids).  When that holds the recovery
proceeds (sessions are closed, keys fetched, the retry transmitted); a stale
id outside the set dereferences an `undefined` cipher, so `doSendMessage`
throws a `TypeError` instead of recovering. -/
theorem c10_stale_cipher_precondition (frames : Nat → FrameInput) (addr : String)
    (ts fuel : Nat) (ids ids2 : List Nat) (resp : ProtoResponse)
    (h0e : (frames 0).encryptError = none)
    (h0s : (frames 0).sendOutcome = .err (.protocolError 410 resp))
    (h0k : (frames 0).getKeysResult = .ok ())
    (h0r : (frames 0).reloadDeviceIds = .ok ids2)
    (h1e : (frames 1).encryptError = none)
    (h1s : (frames 1).sendOutcome = .ok) :
    ((∀ x ∈ resp.staleDevices, x ∈ ids) →
      doSendMessage frames addr ts (fuel + 2) 0 ids true =
        some (.transmit ids ts :: resp.staleDevices.map Action.closeSession ++
          [.fetchKeys resp.staleDevices, .reload false, .transmit ids2 ts,
           .emit (.sent addr), .emit (.sent addr)], .ok ())) ∧
    (∀ x, x ∈ resp.staleDevices → x ∉ ids →
      doSendMessage frames addr ts (fuel + 2) 0 ids true =
        some (.transmit ids ts :: (closeStaleActs ids resp.staleDevices).1,
          .error (.genericError "TypeError: ciphers[x] is undefined")) ∧
      (∀ dl, Action.fetchKeys dl ∉ (closeStaleActs ids resp.staleDevices).1)) := by
  constructor
  · intro hall
    have e0 := frameStep_410_recover (frames 0) addr ts ids resp ids2
      (resp.staleDevices.map Action.closeSession) h0e h0s h0k h0r
      (closeStaleActs_of_all ids resp.staleDevices hall)
    have e1 := frameStep_send_ok (frames 1) addr ts ids2 false h1e h1s
    simp [doSendMessage_succ, e0, e1]
  · intro x hx hnc
    refine ⟨?_, fun dl => fetchKeys_not_mem_closeActs ids resp.staleDevices dl⟩
    rcases hcl : closeStaleActs ids resp.staleDevices with ⟨a, ok⟩
    have hsnd := closeStaleActs_snd_false ids resp.staleDevices x hx hnc
    rw [hcl] at hsnd
    simp only at hsnd
    subst hsnd
    have e0 := frameStep_410_typeError (frames 0) addr ts ids resp a h0e h0s hcl
    simp [doSendMessage_succ, e0, hcl]

/-- Witness for C10 at a concrete environment (stale device 3 present among
the encrypted ids, so the recovery proceeds). -/
def c10Frames : Nat → FrameInput := fun i =>
  if i = 0 then ⟨none, .err (.protocolError 410 ⟨[], [], [3]⟩), .ok (), .ok [3]⟩
  else ⟨none, .ok, .ok (), .ok []⟩

theorem c10_stale_cipher_precondition_witness :
    ((∀ x ∈ ([3] : List Nat), x ∈ ([1, 3] : List Nat)) →
      doSendMessage c10Frames "alice" 7 2 0 [1, 3] true =
        some (.transmit [1, 3] 7 :: [3].map Action.closeSession ++
          [.fetchKeys [3], .reload false, .transmit [3] 7,
           .emit (.sent "alice"), .emit (.sent "alice")], .ok ())) ∧
    (∀ x, x ∈ ([3] : List Nat) → x ∉ ([1, 3] : List Nat) →
      doSendMessage c10Frames "alice" 7 2 0 [1, 3] true =
        some (.transmit [1, 3] 7 :: (closeStaleActs [1, 3] [3]).1,
          .error (.genericError "TypeError: ciphers[x] is undefined")) ∧
      (∀ dl, Action.fetchKeys dl ∉ (closeStaleActs [1, 3] [3]).1)) :=
  c10_stale_cipher_precondition c10Frames "alice" 7 0 [1, 3] [3] ⟨[], [], [3]⟩
    rfl rfl rfl rfl rfl rfl

/-! ## Claim C9 -/

theorem transmit_not_mem_removeActs (addr : String) (E : List Nat) (d : List Nat) (t : Nat) :
    Action.transmit d t ∉ removeDeviceIdsForAddr addr E := by
  simp [removeDeviceIdsForAddr]

theorem transmit_not_mem_closeActs (ids l : List Nat) (d : List Nat) (t : Nat) :
    Action.transmit d t ∉ (closeStaleActs ids l).1 := by
  induction l with
  | nil => simp [closeStaleActs]
  | cons y ys ih =>
    by_cases hy : y ∈ ids
    · simp only [closeStaleActs, if_pos hy]
      rcases hcl : closeStaleActs ids ys with ⟨a, ok⟩
      rw [hcl] at ih
      simpa using ih
    · simp [closeStaleActs, hy]

theorem frameStep_transmit_ts (fi : FrameInput) (addr : String) (ts : Nat)
    (ids : List Nat) (recurse : Bool) (d : List Nat) (t : Nat)
    (h : Action.transmit d t ∈ (frameStep fi addr ts ids recurse).acts) : t = ts := by
  unfold frameStep at h
  cases hfe : fi.encryptError with
  | some e => rw [hfe] at h; simp [FrameStep.acts] at h
  | none =>
    rw [hfe] at h
    cases hts : transmitMessage fi.sendOutcome with
    | ok u =>
      rw [hts] at h
      simp [FrameStep.acts] at h
      exact h.2
    | error e =>
      rw [hts] at h
      cases e with
      | protocolError code resp =>
        simp only [] at h
        by_cases hc : code = 410 ∨ code = 409
        · rw [if_pos hc] at h
          by_cases hr : recurse = true
          case neg =>
            rw [if_neg hr] at h
            simp [FrameStep.acts] at h
            exact h.2
          case pos =>
            rw [if_pos hr] at h
            rcases hif : (if code = 409 then
                (removeDeviceIdsForAddr addr resp.extraDevices, true)
              else closeStaleActs ids resp.staleDevices) with ⟨racts, b⟩
            rw [hif] at h
            have hnr : Action.transmit d t ∉ racts := by
              by_cases hc9 : code = 409
              · rw [if_pos hc9] at hif
                injection hif with h1 h2
                rw [← h1]
                exact transmit_not_mem_removeActs addr resp.extraDevices d t
              · rw [if_neg hc9] at hif
                have hni := transmit_not_mem_closeActs ids resp.staleDevices d t
                rw [hif] at hni
                exact hni
            cases b with
            | false =>
              simp [FrameStep.acts, hnr] at h
              exact h.2
            | true =>
              cases hgk : fi.getKeysResult with
              | error e2 =>
                rw [hgk] at h
                simp [FrameStep.acts, hnr] at h
                exact h.2
              | ok u =>
                rw [hgk] at h
                cases hrl : fi.reloadDeviceIds with
                | error e3 =>
                  rw [hrl] at h
                  simp [FrameStep.acts, hnr] at h
                  exact h.2
                | ok ids2 =>
                  rw [hrl] at h
                  simp [FrameStep.acts, hnr] at h
                  exact h.2
        · rw [if_neg hc] at h
          simp [FrameStep.acts] at h
          exact h.2
      | outgoingMessageError c => simp [FrameStep.acts] at h; exact h.2
      | unregisteredUserError c => simp [FrameStep.acts] at h; exact h.2
      | sendMessageError c => simp [FrameStep.acts] at h; exact h.2
      | outgoingIdentityKeyError a => simp [FrameStep.acts] at h; exact h.2
      | genericError m => simp [FrameStep.acts] at h; exact h.2
      | noCause => simp [FrameStep.acts] at h; exact h.2

theorem doSendMessage_transmit_ts (frames : Nat → FrameInput) (addr : String) (ts : Nat) :
    ∀ fuel depth ids recurse acts r,
      doSendMessage frames addr ts fuel depth ids recurse = some (acts, r) →
      ∀ d t, Action.transmit d t ∈ acts → t = ts := by
  intro fuel
  induction fuel with
  | zero =>
    intro depth ids recurse acts r h
    simp [doSendMessage] at h
  | succ fuel ih =>
    intro depth ids recurse acts r h d t hm
    rw [doSendMessage_succ] at h
    cases hfs : frameStep (frames depth) addr ts ids recurse with
    | done acts0 r0 =>
      rw [hfs] at h
      simp only [Option.some.injEq, Prod.mk.injEq] at h
      obtain ⟨ha, _⟩ := h
      subst ha
      exact frameStep_transmit_ts (frames depth) addr ts ids recurse d t (by rw [hfs]; exact hm)
    | recover acts0 ids2 rec2 =>
      rw [hfs] at h
      simp only [] at h
      cases hrec : doSendMessage frames addr ts fuel (depth + 1) ids2 rec2 with
      | none => rw [hrec] at h; simp at h
      | some p =>
        rcases p with ⟨acts2, r2⟩
        rw [hrec] at h
        cases r2 with
        | error e4 =>
          simp only [Option.some.injEq, Prod.mk.injEq] at h
          obtain ⟨ha, _⟩ := h
          subst ha
          rcases List.mem_append.mp hm with hm1 | hm1
          · rcases List.mem_append.mp hm1 with hm2 | hm2
            · exact frameStep_transmit_ts (frames depth) addr ts ids recurse d t
                (by rw [hfs]; exact hm2)
            · exact ih (depth + 1) ids2 rec2 acts2 (.error e4) hrec d t hm2
          · simp at hm1
        | ok u =>
          simp only [Option.some.injEq, Prod.mk.injEq] at h
          obtain ⟨ha, _⟩ := h
          subst ha
          rcases List.mem_append.mp hm with hm1 | hm1
          · rcases List.mem_append.mp hm1 with hm2 | hm2
            · exact frameStep_transmit_ts (frames depth) addr ts ids recurse d t
                (by rw [hfs]; exact hm2)
            · exact ih (depth + 1) ids2 rec2 acts2 (.ok u) hrec d t hm2
          · simp at hm1

/-- Claim C9: in every terminating dispatch, every transmit attempt — the
initial one and all 409/410 retries — passes to `signal.sendMessages` the
very timestamp the `OutgoingMessage` was constructed with (the model threads
`this.timestamp` as an immutable parameter, matching the source, where no
operation assigns to it after the constructor). -/
theorem c9_timestamp_immutable (env : SendEnv) (addr : String) (ts fuel : Nat)
    (acts : List Action) (h : sendToAddr env addr ts fuel = some acts) :
    ∀ d t, Action.transmit d t ∈ acts → t = ts := by
  intro d t hm
  unfold sendToAddr at h
  split at h
  · simp only [Option.some.injEq] at h
    subst h
    simp at hm
  · split at h
    · simp only [Option.some.injEq] at h
      subst h
      simp at hm
    · split at h
      · simp only [Option.some.injEq] at h
        subst h
        simp at hm
      · rename_i ids heq
        cases hds : doSendMessage env.frames addr ts fuel 0 ids true with
        | none => rw [hds] at h; simp at h
        | some p =>
          rcases p with ⟨acts0, r0⟩
          rw [hds] at h
          cases r0 with
          | ok u =>
            simp only [Option.some.injEq] at h
            subst h
            rcases List.mem_cons.mp hm with hm1 | hm1
            · cases hm1
            · exact doSendMessage_transmit_ts env.frames addr ts fuel 0 ids true acts0
                (.ok u) hds d t hm1
          | error e =>
            simp only [Option.some.injEq] at h
            subst h
            rcases List.mem_cons.mp hm with hm1 | hm1
            · cases hm1
            · rcases List.mem_append.mp hm1 with hm2 | hm2
              · exact doSendMessage_transmit_ts env.frames addr ts fuel 0 ids true acts0
                  (.error e) hds d t hm2
              · simp at hm2

/-- Witness for C9 at a concrete dispatch that transmits twice. -/
def c9Frames : Nat → FrameInput := fun i =>
  if i = 0 then ⟨none, .err (.protocolError 409 ⟨[], [], []⟩), .ok (), .ok [1]⟩
  else ⟨none, .ok, .ok (), .ok [1]⟩

def c9Env : SendEnv := ⟨.ok [], .ok (), .ok [1], c9Frames⟩

def c9Trace : List Action :=
  [.reload true, .transmit [1] 42, .fetchKeys [], .reload true, .transmit [1] 42,
   .emit (.sent "carol"), .emit (.sent "carol")]

theorem c9_timestamp_immutable_witness :
    sendToAddr c9Env "carol" 42 2 = some c9Trace ∧
    (∀ d t, Action.transmit d t ∈ c9Trace → t = 42) :=
  ⟨rfl, c9_timestamp_immutable c9Env "carol" 42 2 c9Trace rfl⟩

/-! ## Key-exchange subsystem (`getKeysForAddr`)

The source function is modelled at the granularity of its external calls:
`signal.getKeysForAddr` RPCs, `builder.processPreKey` runs, and `keychange`
emissions.  The single possible reentrant retry (the recursion can only pass
from `reentrant = false` to `reentrant = true`, where an identity-key change
rethrows instead of recursing) is unrolled: `processDeviceR` /
`getKeysReentrant` embed the `reentrant = true` instantiation and
`processDevice` / `getKeysForAddrModel` the `reentrant = false` one. -/

/-- The response of one `signal.getKeysForAddr` RPC, reduced to the fields
the dispatcher reads: the shared identity key and the device ids of the
returned pre-key bundles. -/
structure KeysResponse where
  identityKey : Nat
  devices : List Nat
deriving DecidableEq

/-- The environment's outcome for one `builder.processPreKey(device)` run:
success, the `"Identity key changed"` signal, or another failure. -/
inductive PreKeyOutcome where
  | ok
  | identityKeyChanged
  | fail (e : JsError)
deriving DecidableEq

/-- The environment of a `getKeysForAddr` run: the outcome of the n-th RPC,
of the n-th `processPreKey` run, and whether the handlers of the n-th
`keychange` emission set `accepted = true`. -/
structure KeysEnv where
  rpcResults : Nat → Except JsError KeysResponse
  preKeyOutcomes : Nat → PreKeyOutcome
  acceptances : Nat → Bool

/-- Consumption counters into a `KeysEnv`. -/
structure KCtr where
  rpc : Nat
  pk : Nat
  acc : Nat
deriving DecidableEq

abbrev KeysOut := List Action × Except JsError Unit × KCtr

def bumpRpc (c : KCtr) : KCtr := ⟨c.rpc + 1, c.pk, c.acc⟩
def bumpPk (c : KCtr) : KCtr := ⟨c.rpc, c.pk + 1, c.acc⟩
def bumpPkAcc (c : KCtr) : KCtr := ⟨c.rpc, c.pk + 1, c.acc + 1⟩

/-- The filter of `handleResult`'s per-device job:
`updateDevices === undefined || updateDevices.indexOf(device.deviceId) > -1`. -/
def deviceSelected : Option (List Nat) → Nat → Bool
  | none, _ => true
  | some l, d => l.contains d

/-- `e instanceof errors.ProtocolError && e.code === 404`. -/
def is404 : JsError → Bool
  | .protocolError code _ => code == 404
  | _ => false

/-- One per-device job of `handleResult` with `reentrant = true`: run
`processPreKey` for a selected device; on `"Identity key changed"` the
`OutgoingIdentityKeyError` is rethrown unconditionally (no `keychange`
emission, no retry). -/
def processDeviceR (ke : KeysEnv) (upd : Option (List Nat)) (d : Nat) (c : KCtr) : KeysOut :=
  if deviceSelected upd d then
    match ke.preKeyOutcomes c.pk with
    | .ok => ([.processPreKey d], .ok (), bumpPk c)
    | .fail e => ([.processPreKey d], .error e, bumpPk c)
    | .identityKeyChanged =>
      ([.processPreKey d], .error (.outgoingIdentityKeyError false), bumpPk c)
  else ([], .ok (), c)

/-- `await Promise.all(jobs)` over the devices of one RPC response, modelled
sequentially with the first failure propagating. -/
def handleDevicesWith (pd : Nat → KCtr → KeysOut) : List Nat → KCtr → KeysOut
  | [], c => ([], .ok (), c)
  | d :: ds, c =>
    match pd d c with
    | (a, .error e, c1) => (a, .error e, c1)
    | (a, .ok _, c1) =>
      match handleDevicesWith pd ds c1 with
      | (a2, r2, c2) => (a ++ a2, r2, c2)

/-- The `for (const device of updateDevices)` loop of the explicit-device
mode: each device's bundle is fetched in strict sequence and processed by
`handle`; a thrown `ProtocolError` with code 404 for a device other than 1
leads to `removeDeviceIdsForAddr(addr, [device])` and the loop continues,
any other error aborts the loop by propagating. -/
def getKeysLoopWith (addr : String) (ke : KeysEnv)
    (handle : KeysResponse → KCtr → KeysOut) : List Nat → KCtr → KeysOut
  | [], c => ([], .ok (), c)
  | d :: ds, c =>
    match
      (match ke.rpcResults c.rpc with
       | .error e => ([Action.rpcGetKeys (some d)], Except.error e, bumpRpc c)
       | .ok resp =>
         match handle resp (bumpRpc c) with
         | (a1, r1, c2) => (Action.rpcGetKeys (some d) :: a1, r1, c2)) with
    | (a, .ok _, c1) =>
      match getKeysLoopWith addr ke handle ds c1 with
      | (a2, r2, c2) => (a ++ a2, r2, c2)
    | (a, .error e, c1) =>
      if is404 e ∧ d ≠ 1 then
        match getKeysLoopWith addr ke handle ds c1 with
        | (a2, r2, c2) =>
          (a ++ removeDeviceIdsForAddr addr [d] ++ a2, r2, c2)
      else (a, .error e, c1)

/-- `getKeysForAddr(addr, updateDevices, reentrant = true)`: without
`updateDevices` one RPC fetches all bundles, otherwise the serial per-device
loop runs; device processing uses the reentrant job. -/
def getKeysReentrant (ke : KeysEnv) (addr : String) (upd : Option (List Nat))
    (c : KCtr) : KeysOut :=
  match upd with
  | none =>
    (match ke.rpcResults c.rpc with
     | .error e => ([.rpcGetKeys none], .error e, bumpRpc c)
     | .ok resp =>
       match handleDevicesWith (processDeviceR ke none) resp.devices (bumpRpc c) with
       | (a, r, c1) => (.rpcGetKeys none :: a, r, c1))
  | some l =>
    getKeysLoopWith addr ke
      (fun resp c => handleDevicesWith (processDeviceR ke (some l)) resp.devices c) l c

/-- One per-device job of `handleResult` with `reentrant = false`: on
`"Identity key changed"` an `OutgoingIdentityKeyError` is built and
`keychange` is emitted; if no handler set `accepted`, the error is thrown,
otherwise the whole `getKeysForAddr(addr, updateDevices, true)` retry runs. -/
def processDevice (ke : KeysEnv) (addr : String) (upd : Option (List Nat))
    (d : Nat) (c : KCtr) : KeysOut :=
  if deviceSelected upd d then
    match ke.preKeyOutcomes c.pk with
    | .ok => ([.processPreKey d], .ok (), bumpPk c)
    | .fail e => ([.processPreKey d], .error e, bumpPk c)
    | .identityKeyChanged =>
      if ke.acceptances c.acc then
        match getKeysReentrant ke addr upd (bumpPkAcc c) with
        | (a3, r3, c3) => ([.processPreKey d, .keychange true] ++ a3, r3, c3)
      else
        ([.processPreKey d, .keychange false],
         .error (.outgoingIdentityKeyError false), bumpPkAcc c)
  else ([], .ok (), c)

/-- `getKeysForAddr(addr, updateDevices)` as called by the dispatcher
(`reentrant = false`). -/
def getKeysForAddrModel (ke : KeysEnv) (addr : String) (upd : Option (List Nat))
    (c : KCtr) : KeysOut :=
  match upd with
  | none =>
    (match ke.rpcResults c.rpc with
     | .error e => ([.rpcGetKeys none], .error e, bumpRpc c)
     | .ok resp =>
       match handleDevicesWith (processDevice ke addr none) resp.devices (bumpRpc c) with
       | (a, r, c1) => (.rpcGetKeys none :: a, r, c1))
  | some l =>
    getKeysLoopWith addr ke
      (fun resp c => handleDevicesWith (processDevice ke addr (some l)) resp.devices c) l c

/-! ## Claim C7 -/

/-- Claim C7: in the explicit-device mode of `getKeysForAddr`, a fetch that
fails with a 404-coded protocol error for a device other than 1 prunes that
device via `removeDeviceIdsForAddr` and the loop carries on with the
remaining devices, raising nothing for it; the same 404 for device 1, and
every non-404 fetch error, abort the operation by propagating the error. -/
theorem c7_404_prunes_nonprimary (ke : KeysEnv) (addr : String) (d : Nat)
    (rest : List Nat) (c : KCtr) (e : JsError)
    (hrpc : ke.rpcResults c.rpc = .error e) :
    (is404 e = true → d ≠ 1 →
      ∃ a2 r2 c2,
        getKeysLoopWith addr ke
          (fun resp k =>
            handleDevicesWith (processDevice ke addr (some (d :: rest))) resp.devices k)
          rest (bumpRpc c) = (a2, r2, c2) ∧
        getKeysForAddrModel ke addr (some (d :: rest)) c =
          ([Action.rpcGetKeys (some d)] ++ removeDeviceIdsForAddr addr [d] ++ a2, r2, c2)) ∧
    (is404 e = true →
      getKeysForAddrModel ke addr (some (1 :: rest)) c =
        ([.rpcGetKeys (some 1)], .error e, bumpRpc c)) ∧
    (is404 e = false →
      getKeysForAddrModel ke addr (some (d :: rest)) c =
        ([.rpcGetKeys (some d)], .error e, bumpRpc c)) := by
  refine ⟨?_, ?_, ?_⟩
  · intro h404 hd
    rcases hrest : getKeysLoopWith addr ke
        (fun resp k =>
          handleDevicesWith (processDevice ke addr (some (d :: rest))) resp.devices k)
        rest (bumpRpc c) with ⟨a2, r2, c2⟩
    refine ⟨a2, r2, c2, rfl, ?_⟩
    simp only [getKeysForAddrModel, getKeysLoopWith, hrpc]
    rw [if_pos ⟨h404, hd⟩, hrest]
  · intro h404
    simp only [getKeysForAddrModel, getKeysLoopWith, hrpc]
    rw [if_neg fun hand => hand.2 rfl]
  · intro h404
    simp only [getKeysForAddrModel, getKeysLoopWith, hrpc]
    rw [if_neg fun hand => by rw [h404] at hand; exact Bool.false_ne_true hand.1]

/-- Witness for C7 at a concrete environment: device 2's fetch 404s and is
pruned, the same 404 for device 1 propagates. -/
def c7Ke : KeysEnv :=
  ⟨fun _ => .error (.protocolError 404 ⟨[], [], []⟩), fun _ => .ok, fun _ => false⟩

theorem c7_404_prunes_nonprimary_witness :
    (is404 (.protocolError 404 ⟨[], [], []⟩) = true → (2 : Nat) ≠ 1 →
      ∃ a2 r2 c2,
        getKeysLoopWith "alice" c7Ke
          (fun resp k =>
            handleDevicesWith (processDevice c7Ke "alice" (some [2])) resp.devices k)
          [] (bumpRpc ⟨0, 0, 0⟩) = (a2, r2, c2) ∧
        getKeysForAddrModel c7Ke "alice" (some [2]) ⟨0, 0, 0⟩ =
          ([Action.rpcGetKeys (some 2)] ++ removeDeviceIdsForAddr "alice" [2] ++ a2, r2, c2)) ∧
    (is404 (.protocolError 404 ⟨[], [], []⟩) = true →
      getKeysForAddrModel c7Ke "alice" (some [1]) ⟨0, 0, 0⟩ =
        ([.rpcGetKeys (some 1)], .error (.protocolError 404 ⟨[], [], []⟩),
         bumpRpc ⟨0, 0, 0⟩)) ∧
    (is404 (.protocolError 404 ⟨[], [], []⟩) = false →
      getKeysForAddrModel c7Ke "alice" (some [2]) ⟨0, 0, 0⟩ =
        ([.rpcGetKeys (some 2)], .error (.protocolError 404 ⟨[], [], []⟩),
         bumpRpc ⟨0, 0, 0⟩)) :=
  c7_404_prunes_nonprimary c7Ke "alice" 2 [] ⟨0, 0, 0⟩ (.protocolError 404 ⟨[], [], []⟩) rfl

/-! ## Claim C8 -/

theorem keychangeCount_removeActs (addr : String) (ids : List Nat) :
    keychangeCount (removeDeviceIdsForAddr addr ids) = 0 := by
  induction ids with
  | nil => rfl
  | cons x rest ih => simpa [removeDeviceIdsForAddr, keychangeCount] using ih

theorem keychangeCount_processDeviceR (ke : KeysEnv) (upd : Option (List Nat))
    (d : Nat) (c : KCtr) : keychangeCount (processDeviceR ke upd d c).1 = 0 := by
  unfold processDeviceR
  by_cases hsel : deviceSelected upd d = true
  · rw [if_pos hsel]
    cases ke.preKeyOutcomes c.pk <;> simp [keychangeCount]
  · rw [if_neg hsel]
    rfl

theorem keychangeCount_handleDevicesWith (pd : Nat → KCtr → KeysOut)
    (hpd : ∀ d c, keychangeCount (pd d c).1 = 0) :
    ∀ (ds : List Nat) (c : KCtr), keychangeCount (handleDevicesWith pd ds c).1 = 0 := by
  intro ds
  induction ds with
  | nil => intro c; rfl
  | cons d rest ih =>
    intro c
    rcases hp : pd d c with ⟨a, r, c1⟩
    have ha := hpd d c
    rw [hp] at ha
    cases r with
    | error e => simp [handleDevicesWith, hp, ha]
    | ok u =>
      rcases hrec : handleDevicesWith pd rest c1 with ⟨a2, r2, c2⟩
      have h2 := ih c1
      rw [hrec] at h2
      simp [handleDevicesWith, hp, hrec, keychangeCount_append, ha, h2]

theorem keychangeCount_getKeysLoopWith (addr : String) (ke : KeysEnv)
    (handle : KeysResponse → KCtr → KeysOut)
    (hh : ∀ resp c, keychangeCount (handle resp c).1 = 0) :
    ∀ (l : List Nat) (c : KCtr),
      keychangeCount (getKeysLoopWith addr ke handle l c).1 = 0 := by
  intro l
  induction l with
  | nil => intro c; rfl
  | cons d rest ih =>
    intro c
    cases hr : ke.rpcResults c.rpc with
    | error e =>
      by_cases hif : is404 e = true ∧ d ≠ 1
      · rcases hrec : getKeysLoopWith addr ke handle rest (bumpRpc c) with ⟨a2, r2, c2⟩
        have h2 := ih (bumpRpc c)
        rw [hrec] at h2
        simp [getKeysLoopWith, hr, if_pos hif, hrec, keychangeCount_append,
          keychangeCount_removeActs, keychangeCount, h2]
      · simp [getKeysLoopWith, hr, if_neg hif, keychangeCount]
    | ok resp =>
      rcases hh1 : handle resp (bumpRpc c) with ⟨a1, r1, c1⟩
      have ha1 := hh resp (bumpRpc c)
      rw [hh1] at ha1
      cases r1 with
      | ok u =>
        rcases hrec : getKeysLoopWith addr ke handle rest c1 with ⟨a2, r2, c2⟩
        have h2 := ih c1
        rw [hrec] at h2
        simp [getKeysLoopWith, hr, hh1, hrec, keychangeCount_append, keychangeCount, ha1, h2]
      | error e =>
        by_cases hif : is404 e = true ∧ d ≠ 1
        · rcases hrec : getKeysLoopWith addr ke handle rest c1 with ⟨a2, r2, c2⟩
          have h2 := ih c1
          rw [hrec] at h2
          simp [getKeysLoopWith, hr, hh1, if_pos hif, hrec, keychangeCount_append,
            keychangeCount_removeActs, keychangeCount, ha1, h2]
        · simp [getKeysLoopWith, hr, hh1, if_neg hif, keychangeCount, ha1]

theorem keychangeCount_getKeysReentrant (ke : KeysEnv) (addr : String)
    (upd : Option (List Nat)) (c : KCtr) :
    keychangeCount (getKeysReentrant ke addr upd c).1 = 0 := by
  cases upd with
  | none =>
    cases hr : ke.rpcResults c.rpc with
    | error e => simp [getKeysReentrant, hr, keychangeCount]
    | ok resp =>
      rcases hh : handleDevicesWith (processDeviceR ke none) resp.devices (bumpRpc c)
        with ⟨a, r, c1⟩
      have := keychangeCount_handleDevicesWith (processDeviceR ke none)
        (fun d k => keychangeCount_processDeviceR ke none d k) resp.devices (bumpRpc c)
      rw [hh] at this
      simp [getKeysReentrant, hr, hh, keychangeCount, this]
  | some l =>
    exact keychangeCount_getKeysLoopWith addr ke _
      (fun resp k => keychangeCount_handleDevicesWith (processDeviceR ke (some l))
        (fun d k2 => keychangeCount_processDeviceR ke (some l) d k2) resp.devices k) l c

/-- Claim C8: an `"Identity key changed"` failure in a non-reentrant
`getKeysForAddr` emits `keychange` carrying an `OutgoingIdentityKeyError`;
if no handler sets `accepted` the error is rethrown (and the dispatch then
terminates in an `error` event carrying the unwrapped
`OutgoingIdentityKeyError`); if accepted, the same address and device set
are retried with `reentrant = true`; a reentrant run rethrows
unconditionally and emits no `keychange` at all, so at most one further
prompt can occur for the address. -/
theorem c8_keychange_policy :
    (∀ (ke : KeysEnv) (addr : String) (upd : Option (List Nat)) (d : Nat) (c : KCtr),
      deviceSelected upd d = true →
      ke.preKeyOutcomes c.pk = .identityKeyChanged →
      ke.acceptances c.acc = false →
      processDevice ke addr upd d c =
        ([.processPreKey d, .keychange false],
         .error (.outgoingIdentityKeyError false), bumpPkAcc c)) ∧
    (∀ (ke : KeysEnv) (addr : String) (upd : Option (List Nat)) (d : Nat) (c : KCtr),
      deviceSelected upd d = true →
      ke.preKeyOutcomes c.pk = .identityKeyChanged →
      ke.acceptances c.acc = true →
      ∃ a3 r3 c3, getKeysReentrant ke addr upd (bumpPkAcc c) = (a3, r3, c3) ∧
        processDevice ke addr upd d c = ([.processPreKey d, .keychange true] ++ a3, r3, c3)) ∧
    (∀ (ke : KeysEnv) (upd : Option (List Nat)) (d : Nat) (c : KCtr),
      deviceSelected upd d = true →
      ke.preKeyOutcomes c.pk = .identityKeyChanged →
      processDeviceR ke upd d c =
        ([.processPreKey d], .error (.outgoingIdentityKeyError false), bumpPk c)) ∧
    (∀ (ke : KeysEnv) (addr : String) (upd : Option (List Nat)) (c : KCtr),
      keychangeCount (getKeysReentrant ke addr upd c).1 = 0) ∧
    (∀ (env : SendEnv) (addr : String) (ts fuel : Nat) (l : List Nat),
      env.staleScan = .ok l →
      env.initialKeys = .error (.outgoingIdentityKeyError false) →
      sendToAddr env addr ts fuel =
        some [.emit (.error addr ("Failed to retrieve new device keys for address " ++ addr)
          (.outgoingIdentityKeyError false))]) := by
  refine ⟨?_, ?_, ?_, keychangeCount_getKeysReentrant, ?_⟩
  · intro ke addr upd d c hsel hpk hacc
    simp [processDevice, hsel, hpk, hacc]
  · intro ke addr upd d c hsel hpk hacc
    rcases hre : getKeysReentrant ke addr upd (bumpPkAcc c) with ⟨a3, r3, c3⟩
    exact ⟨a3, r3, c3, rfl, by simp [processDevice, hsel, hpk, hacc, hre]⟩
  · intro ke upd d c hsel hpk
    simp [processDeviceR, hsel, hpk]
  · intro env addr ts fuel l hss hik
    simp [sendToAddr, hss, hik, emitErrorWrap]

/-- Witness for C8 at a concrete environment: a rejected key change. -/
def c8Ke : KeysEnv :=
  ⟨fun _ => .ok ⟨0, [1]⟩, fun _ => .identityKeyChanged, fun _ => false⟩

theorem c8_keychange_policy_witness :
    processDevice c8Ke "alice" (some [1]) 1 ⟨0, 0, 0⟩ =
      ([.processPreKey 1, .keychange false],
       .error (.outgoingIdentityKeyError false), bumpPkAcc ⟨0, 0, 0⟩) ∧
    keychangeCount (getKeysReentrant c8Ke "alice" (some [1]) ⟨0, 0, 0⟩).1 = 0 :=
  ⟨c8_keychange_policy.1 c8Ke "alice" (some [1]) 1 ⟨0, 0, 0⟩ (by decide) rfl rfl,
   c8_keychange_policy.2.2.2.1 c8Ke "alice" (some [1]) ⟨0, 0, 0⟩⟩

end Librelay
